import Mathlib

/-!
Shallow embedding of the Host↔UI RPC / state-synchronization core of the
repository (extension-host side of an editor-embedded assistant), covering:

* `updateAutoApprovalSettings` (src/core/controller/state/updateAutoApprovalSettings.ts):
  the monotonic-version guarded write of the auto-approval settings;
* `subscribeToTriggerSelectFiles` / `sendTriggerSelectFilesEvent` (same file):
  the trigger-select-files publish/subscribe topic;
* `ensureClineViewIsVisible` (src/core/controller/commands/command-helpers.ts):
  the bounded-wait UI visibility helper;
* `formatContext` (same file): pure formatting of command context into a chat string.

Async host calls are embedded as explicit state passing; the side effects the
source performs (persisting, notifying the task, pushing state, showing
messages) are recorded in an effect trace so theorems can speak about which
effects happen and in which order.
-/

namespace Cline

/-! ### Auto-approval settings (updateAutoApprovalSettings.ts) -/

/-- Stored auto-approval settings. In the source this is the value kept under the
`autoApprovalSettings` global-state key; the guard reads `currentSettings?.version ?? 1`,
so the version field is modelled as optional (absent object and absent field both
fall back to 1). All remaining settings fields are abstracted as `payload`. -/
structure AutoApprovalSettings where
  version : Option Nat
  payload : String
deriving DecidableEq, Repr

/-- The proto request `AutoApprovalSettingsRequest`: carries a (required proto
field) numeric version plus the rest of the settings, abstracted as `payload`. -/
structure AutoApprovalSettingsRequest where
  version : Nat
  payload : String
deriving DecidableEq, Repr

/-- Modelled from the spec: `convertProtoToAutoApprovalSettings`
(shared/proto-conversions/models/auto-approval-settings-conversion) is not under
src/. Per the spec a Versioned Setting "carries an integer version", and the
concrete test in the spec requires the stored version after applying a
version-5 update to be 5, so the conversion carries the request's version and
its remaining fields into the stored settings shape. -/
def convertProtoToAutoApprovalSettings (request : AutoApprovalSettingsRequest) :
    AutoApprovalSettings :=
  { version := some request.version, payload := request.payload }

/-- The proto `Empty` message returned by the handler. -/
structure Empty where
deriving DecidableEq, Repr

/-- `Empty.create()` of the proto runtime. -/
def Empty.create : Empty := {}

/-- The part of the `Controller` state the handler touches: the stored
auto-approval settings (as seen through `getStateToPostToWebview`) and whether a
task object is currently bound (`controller.task`). -/
structure ControllerState where
  autoApprovalSettings : Option AutoApprovalSettings
  hasTask : Bool
deriving DecidableEq, Repr

/-- Observable side effects of the handler, in the order they are performed. -/
inductive Effect where
  | persistGlobal (settings : AutoApprovalSettings)
  | notifyTask (settings : AutoApprovalSettings)
  | postStateToWebview
deriving DecidableEq, Repr

/-- The current version as the handler computes it: `currentSettings?.version ?? 1`. -/
def currentAutoApprovalVersion (st : ControllerState) : Nat :=
  (st.autoApprovalSettings.bind (fun s => s.version)).getD 1

/-- Embedding of `updateAutoApprovalSettings(controller, request)`. Returns the
controller state after the call, the trace of side effects in order, and the
returned `Empty`. Mirrors the source line by line: read current settings, read
versions, and only when `incomingVersion > currentVersion` convert, persist via
`updateGlobalState`, notify `controller.task` if bound, then
`postStateToWebview`; otherwise fall through to `return Empty.create()`. -/
def updateAutoApprovalSettings (st : ControllerState)
    (request : AutoApprovalSettingsRequest) :
    ControllerState × List Effect × Empty :=
  let currentSettings := st.autoApprovalSettings
  let incomingVersion := request.version
  let currentVersion := (currentSettings.bind (fun s => s.version)).getD 1
  if currentVersion < incomingVersion then
    let settings := convertProtoToAutoApprovalSettings request
    let stPersisted : ControllerState := { st with autoApprovalSettings := some settings }
    let effsPersist : List Effect := [Effect.persistGlobal settings]
    let effsTask : List Effect :=
      if st.hasTask then effsPersist ++ [Effect.notifyTask settings] else effsPersist
    let effsPost : List Effect := effsTask ++ [Effect.postStateToWebview]
    (stPersisted, effsPost, Empty.create)
  else
    (st, [], Empty.create)

/-- Process a sequence of incoming updates in order, re-reading the current
state before each check (each call's output state feeds the next call). The
second component records, per request, whether that update was applied
(observable as a nonempty effect trace). -/
def runUpdates (st : ControllerState) (requests : List AutoApprovalSettingsRequest) :
    ControllerState × List Bool :=
  requests.foldl
    (fun acc r =>
      let out := updateAutoApprovalSettings acc.1 r
      (out.1, acc.2 ++ [!(out.2.1.isEmpty)]))
    (st, [])

/-! ### Trigger-select-files topic (same source file)

The module-level `activeTriggerSelectFilesSubscriptions : Set<StreamingResponseHandler>`
is embedded as an explicit duplicate-free insertion-ordered list of channel
handles (`Nat` stands for a `StreamingResponseHandler` reference; JS `Set`
iterates in insertion order, `Array.from` snapshots it). -/

/-- JS `Set.add`: append if not already a member (insertion order preserved). -/
def setAdd (s : List Nat) (x : Nat) : List Nat :=
  if x ∈ s then s else s ++ [x]

/-- JS `Set.delete`: remove the element, keeping the others in order. -/
def setDelete (s : List Nat) (x : Nat) : List Nat :=
  s.filter (fun y => y ≠ x)

/-- Result of `subscribeToTriggerSelectFiles`: the subscription set after the
call and, when a request id was supplied, the `(requestId, cleanup)` pair
handed to `getRequestRegistry().registerRequest`. The cleanup closure acts on
whatever the subscription set is when it later runs. -/
structure SubscribeResult where
  activeSubscriptions : List Nat
  registeredCleanup : Option (String × (List Nat → List Nat))

/-- Embedding of `subscribeToTriggerSelectFiles(_controller, request, responseStream, requestId?)`:
adds `responseStream` to the set, builds the cleanup closure that deletes it,
and registers that closure with the Request Registry iff `requestId` is
present. -/
def subscribeToTriggerSelectFiles (subs : List Nat) (responseStream : Nat)
    (requestId : Option String) : SubscribeResult :=
  let subsAfterAdd := setAdd subs responseStream
  let cleanup : List Nat → List Nat := fun s => setDelete s responseStream
  match requestId with
  | some id => { activeSubscriptions := subsAfterAdd, registeredCleanup := some (id, cleanup) }
  | none => { activeSubscriptions := subsAfterAdd, registeredCleanup := none }

/-- Result of one `sendTriggerSelectFilesEvent` publish: the subscription set
after the publish and the list of channels a delivery was attempted to, in
order. -/
structure PublishResult where
  activeSubscriptions : List Nat
  attempts : List Nat
deriving DecidableEq, Repr

/-- One delivery attempt: the try/catch around `await responseStream(event, false)`.
`deliverOk ch` says whether the awaited push to channel `ch` succeeds; on error
the channel is removed from the set and the error goes no further. -/
def trySendTo (deliverOk : Nat → Bool) (ch : Nat) (subs : List Nat) : List Nat :=
  match (if deliverOk ch then Except.ok () else Except.error "delivery failed" :
      Except String Unit) with
  | Except.ok _ => subs
  | Except.error _ => setDelete subs ch

/-- Embedding of `sendTriggerSelectFilesEvent()`. `Array.from` snapshots the
set before iterating, so attempts go exactly to the snapshot; `newcomers`
models channels subscribed by interleaved `subscribeToTriggerSelectFiles`
calls while the publish's promises are in flight (they join the set but get no
attempt). Every per-channel error is caught inside `trySendTo`, so the publish
as a whole returns `Except.ok` — no delivery error propagates to the caller. -/
def sendTriggerSelectFilesEvent (subs : List Nat) (deliverOk : Nat → Bool)
    (newcomers : List Nat) : Except String PublishResult :=
  let snapshot := subs
  let subsDuring := newcomers.foldl setAdd subs
  Except.ok
    { activeSubscriptions := snapshot.foldl (fun acc ch => trySendTo deliverOk ch acc) subsDuring,
      attempts := snapshot }

/-- The subscription set left by a publish (`[]` is unreachable: publish always
returns `Except.ok`). -/
def publishSubs (r : Except String PublishResult) : List Nat :=
  match r with
  | Except.ok p => p.activeSubscriptions
  | Except.error _ => []

/-- The channels a publish attempted delivery to, in order. -/
def publishAttempts (r : Except String PublishResult) : List Nat :=
  match r with
  | Except.ok p => p.attempts
  | Except.error _ => []

/-! ### ensureClineViewIsVisible (command-helpers.ts)

Time is modelled in poll ticks of the `pWaitFor` loop (interval 20 ms, timeout
3000 ms). The host environment is a function from tick to the value
`WebviewProvider.getLastActiveInstance()` would return at that tick. -/

/-- A webview instance as the helper sees it: its client id (the empty string
models a falsy `getClientId()` result) and its controller, abstracted as a
numeric handle. -/
structure WebviewInstance where
  clientId : String
  controller : Nat
deriving DecidableEq, Repr

/-- The host environment: what `WebviewProvider.getLastActiveInstance()`
returns at each poll tick. -/
structure HostEnv where
  lastActiveInstance : Nat → Option WebviewInstance

/-- `pWaitFor` timeout option: 3000 ms. -/
def pollTimeoutMs : Nat := 3000

/-- `pWaitFor` default poll interval: 20 ms. -/
def pollIntervalMs : Nat := 20

/-- Last poll tick inside the bounded wait (checks run at ticks 0..pollBound). -/
def pollBound : Nat := pollTimeoutMs / pollIntervalMs

/-- Embedding of the `pWaitFor` call on `!!WebviewProvider.getLastActiveInstance()`
with timeout option 3000: the first tick within the bound at which an instance
exists, or `none` when the wait times out (the promise rejects). -/
def pWaitForLastActiveInstance (env : HostEnv) : Option Nat :=
  (List.range (pollBound + 1)).find? (fun t => (env.lastActiveInstance t).isSome)

/-- Host-visible side effects of `ensureClineViewIsVisible`, in order. -/
inductive HostEffect where
  | executeFocusCommand
  | showErrorMessage (message : String)
  | sendFocusChatInputEvent (clientId : String)
deriving DecidableEq, Repr

/-- Whether an effect is a user-facing error message. -/
def isErrorMessage : HostEffect → Bool
  | HostEffect.showErrorMessage _ => true
  | _ => false

/-- Embedding of `ensureClineViewIsVisible()`. Mirrors the source step by step:
(1) execute the `cline.focusChatInput` command; (2) snapshot
`getLastActiveInstance()` — at tick 0, before the wait; (3) bounded-wait poll;
on timeout show one error message and return null; (4) re-check the tick-0
snapshot and its client id, showing an error and returning null when either is
falsy; (5) send the focus event; (6) return the snapshot's controller. Returns
the controller handle (or `none`) and the effect trace. -/
def ensureClineViewIsVisible (env : HostEnv) : Option Nat × List HostEffect :=
  let activeWebview := env.lastActiveInstance 0
  match pWaitForLastActiveInstance env with
  | none =>
      (none, [HostEffect.executeFocusCommand,
        HostEffect.showErrorMessage
          "Could not activate Cline view. Please try opening it manually."])
  | some _ =>
      match activeWebview with
      | none =>
          (none, [HostEffect.executeFocusCommand,
            HostEffect.showErrorMessage "Could not find an active Cline chat window."])
      | some w =>
          if w.clientId = "" then
            (none, [HostEffect.executeFocusCommand,
              HostEffect.showErrorMessage "Could not find an active Cline chat window."])
          else
            (some w.controller,
              [HostEffect.executeFocusCommand,
                HostEffect.sendFocusChatInputEvent w.clientId])

/-- Number of poll ticks consumed by the call: the full bound on timeout, and
the tick after the successful check otherwise — never more than the bound. -/
def ensureClineViewIsVisiblePolls (env : HostEnv) : Nat :=
  match pWaitForLastActiveInstance env with
  | none => pollBound + 1
  | some t => t + 1

/-- Environment used to refute the claim that a successful poll always yields a
non-null controller: no instance exists at tick 0 (when the pre-wait snapshot
is taken), but one appears from tick 1 on, so the poll succeeds. -/
def raceEnv : HostEnv :=
  { lastActiveInstance := fun t =>
      if t = 0 then none else some { clientId := "client-1", controller := 7 } }

/-! ### formatContext (command-helpers.ts) -/

/-- The proto `DiagnosticSeverity` enum. -/
inductive DiagnosticSeverity where
  | diagnosticUnspecified
  | diagnosticError
  | diagnosticWarning
  | diagnosticInformation
  | diagnosticHint
deriving DecidableEq, Repr

/-- A position inside a diagnostic range; only the line number is read. -/
structure DiagnosticPosition where
  line : Nat
deriving DecidableEq, Repr

/-- A diagnostic range; the source reads `range?.start?.line`, so `start` is
optional. -/
structure DiagnosticRange where
  start : Option DiagnosticPosition
deriving DecidableEq, Repr

/-- The proto `Diagnostic` as `formatContext` reads it. -/
structure Diagnostic where
  range : Option DiagnosticRange
  severity : DiagnosticSeverity
  message : String
  source : Option String
deriving DecidableEq, Repr

/-- The `codeSelection` object of a `CommandContext`. -/
structure CodeSelection where
  text : String
  languageId : String
deriving DecidableEq, Repr

/-- The `CommandContext` interface: every field optional. -/
structure CommandContext where
  prompt : Option String
  filePath : Option String
  codeSelection : Option CodeSelection
  terminalOutput : Option String
  diagnostics : Option (List Diagnostic)
deriving DecidableEq, Repr

/-- JS truthiness of an optional string field: present and non-empty. -/
def truthyString : Option String → Bool
  | some s => !s.isEmpty
  | none => false

/-- The switch over `diagnostic.severity` producing the bullet label. -/
def severityLabel : DiagnosticSeverity → String
  | DiagnosticSeverity.diagnosticError => "Error"
  | DiagnosticSeverity.diagnosticWarning => "Warning"
  | DiagnosticSeverity.diagnosticInformation => "Info"
  | DiagnosticSeverity.diagnosticHint => "Hint"
  | DiagnosticSeverity.diagnosticUnspecified => "Diagnostic"

/-- One bullet of the problems list: the line number is
`(diagnostic.range?.start?.line || 0) + 1` (so 1-based, defaulting to 1 when
the range or its start is missing) and the source tag is bracketed only when
the source string is truthy. -/
def diagnosticLine (d : Diagnostic) : String :=
  let line := ((d.range.bind (fun r => r.start)).map (fun p => p.line)).getD 0 + 1
  let sourceTag :=
    match d.source with
    | some s => if s.isEmpty then "" else "[" ++ s ++ "] "
    | none => ""
  "- " ++ sourceTag ++ severityLabel d.severity ++ " on line " ++ toString line ++ ": "
    ++ d.message ++ "\n"

/-- JS `String.prototype.trim()`: drop whitespace from both ends. -/
def trimString (s : String) : String :=
  ⟨((s.data.dropWhile Char.isWhitespace).reverse.dropWhile Char.isWhitespace).reverse⟩

/-- The accumulated `problemsString` ("Problems:" header plus one bullet per
diagnostic, each ending in a newline) followed by `.trim()`. -/
def problemsString (ds : List Diagnostic) : String :=
  trimString ("Problems:\n" ++ String.join (ds.map diagnosticLine))

/-- Embedding of `formatContext(context, controller)`. `getFileMentionFromPath`
abstracts the awaited `controller.getFileMentionFromPath`. Parts are pushed in
the source's fixed order — prompt, file mention, fenced code selection, fenced
terminal output, problems list — each only when its field is truthy, then
joined with a double newline. -/
def formatContext (getFileMentionFromPath : String → String)
    (context : CommandContext) : String :=
  let parts : List String := []
  let parts := if truthyString context.prompt then parts ++ [context.prompt.getD ""] else parts
  let parts := if truthyString context.filePath
    then parts ++ [getFileMentionFromPath (context.filePath.getD "")] else parts
  let parts :=
    match context.codeSelection with
    | some sel => parts ++ ["```" ++ sel.languageId ++ "\n" ++ sel.text ++ "\n```"]
    | none => parts
  let parts := if truthyString context.terminalOutput
    then parts ++ ["Terminal output:\n```\n" ++ context.terminalOutput.getD "" ++ "\n```"]
    else parts
  let parts :=
    match context.diagnostics with
    | some ds => if 0 < ds.length then parts ++ [problemsString ds] else parts
    | none => parts
  String.intercalate "\n\n" parts

/-! ### Helper lemmas for updateAutoApprovalSettings -/

theorem updateAutoApprovalSettings_applied_eq
    (st : ControllerState) (r : AutoApprovalSettingsRequest)
    (h : currentAutoApprovalVersion st < r.version) :
    updateAutoApprovalSettings st r =
      ({ st with autoApprovalSettings := some (convertProtoToAutoApprovalSettings r) },
        (if st.hasTask then
          [Effect.persistGlobal (convertProtoToAutoApprovalSettings r),
           Effect.notifyTask (convertProtoToAutoApprovalSettings r)]
         else
          [Effect.persistGlobal (convertProtoToAutoApprovalSettings r)])
          ++ [Effect.postStateToWebview],
        Empty.create) := by
  have h' : (st.autoApprovalSettings.bind fun s => s.version).getD 1 < r.version := h
  simp only [updateAutoApprovalSettings, if_pos h']
  cases hT : st.hasTask <;> simp [hT]

theorem updateAutoApprovalSettings_rejected_eq
    (st : ControllerState) (r : AutoApprovalSettingsRequest)
    (h : ¬ currentAutoApprovalVersion st < r.version) :
    updateAutoApprovalSettings st r = (st, [], Empty.create) := by
  have h' : ¬ (st.autoApprovalSettings.bind fun s => s.version).getD 1 < r.version := h
  simp only [updateAutoApprovalSettings, if_neg h']

theorem updateAutoApprovalSettings_applied_iff
    (st : ControllerState) (r : AutoApprovalSettingsRequest) :
    (updateAutoApprovalSettings st r).2.1 ≠ [] ↔
      currentAutoApprovalVersion st < r.version := by
  by_cases h : currentAutoApprovalVersion st < r.version
  · rw [updateAutoApprovalSettings_applied_eq st r h]
    cases st.hasTask <;> simp [h]
  · rw [updateAutoApprovalSettings_rejected_eq st r h]
    simp [h]

/-! ### Claim theorems: auto-approval settings -/

/-- C1: `updateAutoApprovalSettings` applies an incoming update iff its version
exceeds the current version, the current version being re-read from the state
each call; concretely, from current version 3 the update sequence with versions
[2, 3, 5, 4] applies only the version-5 update (flags [false, false, true, false],
so the version-4 update arriving after 5 is rejected even though 4 > 3) and the
final stored version is 5. -/
theorem updateAutoApprovalSettings_monotonic_version :
    (∀ (st : ControllerState) (r : AutoApprovalSettingsRequest),
        (updateAutoApprovalSettings st r).2.1 ≠ [] ↔
          currentAutoApprovalVersion st < r.version)
    ∧ (runUpdates ⟨some ⟨some 3, "s3"⟩, false⟩
        [⟨2, "a"⟩, ⟨3, "b"⟩, ⟨5, "c"⟩, ⟨4, "d"⟩]).2 = [false, false, true, false]
    ∧ ((runUpdates ⟨some ⟨some 3, "s3"⟩, false⟩
        [⟨2, "a"⟩, ⟨3, "b"⟩, ⟨5, "c"⟩, ⟨4, "d"⟩]).1.autoApprovalSettings.bind
          (fun s => s.version)) = some 5 :=
  ⟨updateAutoApprovalSettings_applied_iff, by decide, by decide⟩

/-- C2: an incoming update whose version is ≤ the current version causes no side
effect at all: the state (hence the stored global setting) is unchanged, the
effect trace is empty (no task notification, no state push), and the call
returns `Empty.create` normally. -/
theorem updateAutoApprovalSettings_rejected_no_side_effects
    (st : ControllerState) (r : AutoApprovalSettingsRequest)
    (h : r.version ≤ currentAutoApprovalVersion st) :
    updateAutoApprovalSettings st r = (st, [], Empty.create) :=
  updateAutoApprovalSettings_rejected_eq st r (Nat.not_lt.mpr h)

/-- Witness for C2 at current version 3, incoming version 3, with a bound task. -/
theorem updateAutoApprovalSettings_rejected_no_side_effects_witness :
    (3 : Nat) ≤ currentAutoApprovalVersion ⟨some ⟨some 3, "s3"⟩, true⟩
    ∧ updateAutoApprovalSettings ⟨some ⟨some 3, "s3"⟩, true⟩ ⟨3, "b"⟩
        = (⟨some ⟨some 3, "s3"⟩, true⟩, [], Empty.create) :=
  ⟨by decide,
   updateAutoApprovalSettings_rejected_no_side_effects
     ⟨some ⟨some 3, "s3"⟩, true⟩ ⟨3, "b"⟩ (by decide)⟩

/-- C3: an incoming update whose version exceeds the current version first
persists the converted settings to the state, then notifies the bound task (if
and only if one is bound) with that settings value, and finally pushes the full
state to the webview; the effect order is persist, then notify, then push, and
if no task is bound only persist and push occur. -/
theorem updateAutoApprovalSettings_applied_order
    (st : ControllerState) (r : AutoApprovalSettingsRequest)
    (h : currentAutoApprovalVersion st < r.version) :
    (updateAutoApprovalSettings st r).1 =
      { st with autoApprovalSettings := some (convertProtoToAutoApprovalSettings r) }
    ∧ (updateAutoApprovalSettings st r).2.1 =
        (if st.hasTask then
          [Effect.persistGlobal (convertProtoToAutoApprovalSettings r),
           Effect.notifyTask (convertProtoToAutoApprovalSettings r),
           Effect.postStateToWebview]
         else
          [Effect.persistGlobal (convertProtoToAutoApprovalSettings r),
           Effect.postStateToWebview])
    ∧ (updateAutoApprovalSettings st r).2.2 = Empty.create := by
  rw [updateAutoApprovalSettings_applied_eq st r h]
  cases st.hasTask <;> simp

/-- Witness for C3 at current version 3, incoming version 5, with a bound task. -/
theorem updateAutoApprovalSettings_applied_order_witness :
    currentAutoApprovalVersion ⟨some ⟨some 3, "s3"⟩, true⟩ < 5
    ∧ (updateAutoApprovalSettings ⟨some ⟨some 3, "s3"⟩, true⟩ ⟨5, "c"⟩).2.1 =
        [Effect.persistGlobal ⟨some 5, "c"⟩, Effect.notifyTask ⟨some 5, "c"⟩,
         Effect.postStateToWebview] := by
  have h := updateAutoApprovalSettings_applied_order
    ⟨some ⟨some 3, "s3"⟩, true⟩ ⟨5, "c"⟩ (by decide)
  exact ⟨by decide, by simpa [convertProtoToAutoApprovalSettings] using h.2.1⟩

/-- C9: when the stored settings object is absent, or its version field is
absent, the current version is treated as 1; hence against an empty store an
update is applied iff its version is at least 2, and an incoming version ≤ 1
(in particular 0 or 1) is rejected with no side effect. -/
theorem updateAutoApprovalSettings_empty_store
    (st : ControllerState) (r : AutoApprovalSettingsRequest)
    (h : st.autoApprovalSettings.bind (fun s => s.version) = none) :
    currentAutoApprovalVersion st = 1
    ∧ ((updateAutoApprovalSettings st r).2.1 ≠ [] ↔ 2 ≤ r.version)
    ∧ (r.version ≤ 1 → updateAutoApprovalSettings st r = (st, [], Empty.create)) := by
  have hcur : currentAutoApprovalVersion st = 1 := by
    simp [currentAutoApprovalVersion, h]
  refine ⟨hcur, ?_, fun hle => ?_⟩
  · rw [updateAutoApprovalSettings_applied_iff, hcur]
    omega
  · exact updateAutoApprovalSettings_rejected_eq st r (by omega)

/-- Witness for C9: empty store, incoming version 1 is rejected. -/
theorem updateAutoApprovalSettings_empty_store_witness :
    currentAutoApprovalVersion ⟨none, false⟩ = 1
    ∧ ((updateAutoApprovalSettings ⟨none, false⟩ ⟨1, "x"⟩).2.1 ≠ [] ↔ 2 ≤ 1)
    ∧ updateAutoApprovalSettings ⟨none, false⟩ ⟨1, "x"⟩
        = (⟨none, false⟩, [], Empty.create) := by
  have h := updateAutoApprovalSettings_empty_store ⟨none, false⟩ ⟨1, "x"⟩ rfl
  exact ⟨h.1, h.2.1, h.2.2 (by decide)⟩

/-! ### Helper lemmas for the trigger-select-files topic -/

theorem mem_setAdd_self (s : List Nat) (x : Nat) : x ∈ setAdd s x := by
  by_cases h : x ∈ s <;> simp [setAdd, h]

theorem setDelete_setAdd_of_not_mem (s : List Nat) (x : Nat) (h : x ∉ s) :
    setDelete (setAdd s x) x = s := by
  rw [setAdd, if_neg h, setDelete, List.filter_append]
  simp only [List.filter_cons, List.filter_nil]
  rw [if_neg (by simp), List.append_nil, List.filter_eq_self]
  intro y hy
  simp only [decide_eq_true_eq]
  intro hyx
  exact h (hyx ▸ hy)

/-! ### Claim theorems: trigger-select-files topic -/

/-- C4: publishing to subscribers [a, b, c] where delivery to b fails while a
and c succeed leaves the subscription set at [a, c] (b removed, a and c kept),
with all three attempted, and the publish returns `Except.ok` (the delivery
error does not propagate); a subsequent publish then attempts delivery only to
[a, c]. -/
theorem sendTriggerSelectFilesEvent_self_healing
    (a b c : Nat) (deliverOk nextDeliverOk : Nat → Bool)
    (hab : a ≠ b) (hac : a ≠ c) (hbc : b ≠ c)
    (ha : deliverOk a = true) (hb : deliverOk b = false) (hc : deliverOk c = true) :
    sendTriggerSelectFilesEvent [a, b, c] deliverOk []
        = Except.ok ⟨[a, c], [a, b, c]⟩
    ∧ publishAttempts
        (sendTriggerSelectFilesEvent
          (publishSubs (sendTriggerSelectFilesEvent [a, b, c] deliverOk []))
          nextDeliverOk [])
        = [a, c] := by
  have hfirst : sendTriggerSelectFilesEvent [a, b, c] deliverOk []
      = Except.ok ⟨[a, c], [a, b, c]⟩ := by
    simp [sendTriggerSelectFilesEvent, trySendTo, setDelete, ha, hb, hc, hab, hbc,
      (hab.symm : b ≠ a), (hac.symm : c ≠ a), (hbc.symm : c ≠ b)]
  refine ⟨hfirst, ?_⟩
  rw [hfirst]
  rfl

/-- Witness for C4 with subscribers 0, 1, 2 where delivery to 1 fails. -/
theorem sendTriggerSelectFilesEvent_self_healing_witness :
    sendTriggerSelectFilesEvent [0, 1, 2] (fun n => n != 1) []
        = Except.ok ⟨[0, 2], [0, 1, 2]⟩
    ∧ publishAttempts
        (sendTriggerSelectFilesEvent
          (publishSubs (sendTriggerSelectFilesEvent [0, 1, 2] (fun n => n != 1) []))
          (fun _ => true) [])
        = [0, 2] :=
  sendTriggerSelectFilesEvent_self_healing 0 1 2 (fun n => n != 1) (fun _ => true)
    (by decide) (by decide) (by decide) (by decide) (by decide) (by decide)

/-- C5: a publish attempts delivery exactly to the snapshot of the subscription
set taken when the publish starts — once per member when the set is
duplicate-free — and a channel subscribed after the publish has started
receives no attempt for that event. -/
theorem sendTriggerSelectFilesEvent_snapshot
    (subs newcomers : List Nat) (deliverOk : Nat → Bool) :
    publishAttempts (sendTriggerSelectFilesEvent subs deliverOk newcomers) = subs
    ∧ (subs.Nodup → ∀ ch ∈ subs,
        (publishAttempts (sendTriggerSelectFilesEvent subs deliverOk newcomers)).count ch = 1)
    ∧ (∀ ch ∈ newcomers, ch ∉ subs →
        ch ∉ publishAttempts (sendTriggerSelectFilesEvent subs deliverOk newcomers)) := by
  have hat : publishAttempts (sendTriggerSelectFilesEvent subs deliverOk newcomers) = subs := rfl
  refine ⟨hat, fun hnd ch hch => ?_, fun ch _ hnot => ?_⟩
  · rw [hat]
    exact List.count_eq_one_of_mem hnd hch
  · rw [hat]
    exact hnot

/-- Witness for C5: set [10, 20] at publish start, channel 30 subscribed during
the publish. -/
theorem sendTriggerSelectFilesEvent_snapshot_witness :
    publishAttempts (sendTriggerSelectFilesEvent [10, 20] (fun _ => true) [30]) = [10, 20]
    ∧ (publishAttempts (sendTriggerSelectFilesEvent [10, 20] (fun _ => true) [30])).count 10 = 1
    ∧ 30 ∉ publishAttempts (sendTriggerSelectFilesEvent [10, 20] (fun _ => true) [30]) := by
  have h := sendTriggerSelectFilesEvent_snapshot [10, 20] [30] (fun _ => true)
  exact ⟨h.1, h.2.1 (by decide) 10 (by decide), h.2.2 30 (by decide) (by decide)⟩

/-- C6: subscribing adds the response stream to the topic's subscription set;
a cleanup closure is registered with the Request Registry iff a request id was
supplied, under exactly that id; and running the registered cleanup removes
exactly that response stream from whatever the subscription set then is — in
particular, running it right after a subscribe of a fresh stream restores the
original set. -/
theorem subscribeToTriggerSelectFiles_spec
    (subs : List Nat) (responseStream : Nat) (requestId : Option String) :
    (subscribeToTriggerSelectFiles subs responseStream requestId).activeSubscriptions
        = setAdd subs responseStream
    ∧ responseStream ∈
        (subscribeToTriggerSelectFiles subs responseStream requestId).activeSubscriptions
    ∧ ((subscribeToTriggerSelectFiles subs responseStream requestId).registeredCleanup.isSome
        ↔ requestId.isSome)
    ∧ (∀ id cleanup,
        (subscribeToTriggerSelectFiles subs responseStream requestId).registeredCleanup
            = some (id, cleanup) →
        requestId = some id
        ∧ (∀ s, cleanup s = s.filter (fun y => y ≠ responseStream))
        ∧ (responseStream ∉ subs →
            cleanup ((subscribeToTriggerSelectFiles subs
              responseStream requestId).activeSubscriptions) = subs)) := by
  refine ⟨?_, ?_, ?_, ?_⟩
  · cases requestId <;> rfl
  · have h1 : (subscribeToTriggerSelectFiles subs responseStream requestId).activeSubscriptions
        = setAdd subs responseStream := by cases requestId <;> rfl
    rw [h1]
    exact mem_setAdd_self subs responseStream
  · cases requestId <;> simp [subscribeToTriggerSelectFiles]
  · intro id cleanup hreg
    cases requestId with
    | none => simp [subscribeToTriggerSelectFiles] at hreg
    | some rid =>
      simp only [subscribeToTriggerSelectFiles, Option.some.injEq, Prod.mk.injEq] at hreg
      obtain ⟨hid, hfn⟩ := hreg
      refine ⟨by rw [hid], fun s => ?_, fun hnot => ?_⟩
      · rw [← hfn]
        rfl
      · rw [← hfn]
        have h1 : (subscribeToTriggerSelectFiles subs responseStream (some rid)).activeSubscriptions
            = setAdd subs responseStream := rfl
        rw [h1]
        exact setDelete_setAdd_of_not_mem subs responseStream hnot

/-- Witness for C6: subscribe stream 3 under request id "r1" to the set [1, 2];
the registered cleanup deletes exactly stream 3 and restores [1, 2]. -/
theorem subscribeToTriggerSelectFiles_spec_witness :
    (some "r1" : Option String) = some "r1"
    ∧ setDelete ([5, 3, 7] : List Nat) 3 = [5, 7]
    ∧ setDelete ((subscribeToTriggerSelectFiles [1, 2] 3
        (some "r1")).activeSubscriptions) 3 = [1, 2] := by
  have h := (subscribeToTriggerSelectFiles_spec [1, 2] 3 (some "r1")).2.2.2 "r1"
    (fun s => setDelete s 3) rfl
  refine ⟨h.1, ?_, h.2.2 (by decide)⟩
  rw [show setDelete ([5, 3, 7] : List Nat) 3 = (fun s => setDelete s 3) [5, 3, 7] from rfl,
    h.2.1 [5, 3, 7]]
  decide

/-! ### Claim theorems: ensureClineViewIsVisible -/

/-- C7: when no webview instance becomes available at any tick of the bounded
3-second wait, `ensureClineViewIsVisible` returns null, its effect trace
contains exactly one user-facing error message (the focus command followed by
the single timeout message), and it consumes no poll ticks beyond the bound. -/
theorem ensureClineViewIsVisible_timeout
    (env : HostEnv)
    (h : ∀ t, t ≤ pollBound → env.lastActiveInstance t = none) :
    (ensureClineViewIsVisible env).1 = none
    ∧ (ensureClineViewIsVisible env).2.countP isErrorMessage = 1
    ∧ (ensureClineViewIsVisible env).2 =
        [HostEffect.executeFocusCommand,
         HostEffect.showErrorMessage
           "Could not activate Cline view. Please try opening it manually."]
    ∧ ensureClineViewIsVisiblePolls env ≤ pollBound + 1 := by
  have hw : pWaitForLastActiveInstance env = none := by
    unfold pWaitForLastActiveInstance
    rw [List.find?_eq_none]
    intro t ht
    rw [List.mem_range] at ht
    simp [h t (Nat.lt_succ_iff.mp ht)]
  refine ⟨?_, ?_, ?_, ?_⟩
  · simp [ensureClineViewIsVisible, hw]
  · simp [ensureClineViewIsVisible, hw, List.countP, List.countP.go, isErrorMessage]
  · simp [ensureClineViewIsVisible, hw]
  · simp [ensureClineViewIsVisiblePolls, hw]

/-- Witness for C7: an environment in which no instance ever appears. -/
theorem ensureClineViewIsVisible_timeout_witness :
    (ensureClineViewIsVisible ⟨fun _ => none⟩).1 = none
    ∧ (ensureClineViewIsVisible ⟨fun _ => none⟩).2.countP isErrorMessage = 1
    ∧ (ensureClineViewIsVisible ⟨fun _ => none⟩).2 =
        [HostEffect.executeFocusCommand,
         HostEffect.showErrorMessage
           "Could not activate Cline view. Please try opening it manually."]
    ∧ ensureClineViewIsVisiblePolls ⟨fun _ => none⟩ ≤ pollBound + 1 :=
  ensureClineViewIsVisible_timeout ⟨fun _ => none⟩ (fun _ _ => rfl)

/-- C8 counterexample: in `raceEnv` no instance exists at tick 0 but one is
available from tick 1 on, so the bounded poll succeeds within the 3-second
wait; yet the call returns null (with a user-facing error), because the source
snapshots `getLastActiveInstance()` before the wait and the tick-0 snapshot was
empty. This refutes the claim that a successful poll always yields that
instance's controller and that null arises only on the timeout path. -/
theorem ensureClineViewIsVisible_race_counterexample :
    (pWaitForLastActiveInstance raceEnv).isSome = true
    ∧ (ensureClineViewIsVisible raceEnv).1 = none
    ∧ (ensureClineViewIsVisible raceEnv).2.countP isErrorMessage = 1 := by
  refine ⟨rfl, rfl, rfl⟩

/-- C8 (amended): `ensureClineViewIsVisible` returns a non-null result iff the
poll succeeds within the bound AND the pre-wait (tick-0) snapshot of
`getLastActiveInstance()` exists with a non-empty client id, in which case it
returns that snapshot instance's controller; null is produced on the timeout
path and also, despite a successful poll, when the tick-0 snapshot is missing
or its client id is empty. -/
theorem ensureClineViewIsVisible_success_characterization (env : HostEnv) :
    ((ensureClineViewIsVisible env).1.isSome = true ↔
      ((pWaitForLastActiveInstance env).isSome = true
        ∧ ∃ w, env.lastActiveInstance 0 = some w ∧ w.clientId ≠ ""))
    ∧ (∀ w, (pWaitForLastActiveInstance env).isSome = true →
        env.lastActiveInstance 0 = some w → w.clientId ≠ "" →
        (ensureClineViewIsVisible env).1 = some w.controller) := by
  constructor
  · cases hp : pWaitForLastActiveInstance env with
    | none => simp [ensureClineViewIsVisible, hp]
    | some t =>
      cases hw : env.lastActiveInstance 0 with
      | none => simp [ensureClineViewIsVisible, hp, hw]
      | some w =>
        by_cases hc : w.clientId = ""
        · simp [ensureClineViewIsVisible, hp, hw, hc]
        · simp [ensureClineViewIsVisible, hp, hw, hc]
  · intro w hp hw hc
    rw [Option.isSome_iff_exists] at hp
    obtain ⟨t, ht⟩ := hp
    simp [ensureClineViewIsVisible, ht, hw, hc]

/-- Witness for the amended C8: an instance with client id "client-1" and
controller handle 7 is present from tick 0 on, and the call returns handle 7. -/
theorem ensureClineViewIsVisible_success_characterization_witness :
    (ensureClineViewIsVisible ⟨fun _ => some ⟨"client-1", 7⟩⟩).1 = some 7 :=
  (ensureClineViewIsVisible_success_characterization ⟨fun _ => some ⟨"client-1", 7⟩⟩).2
    ⟨"client-1", 7⟩ rfl rfl (by decide)

/-! ### Claim theorems: formatContext -/

/-- C10: `formatContext` concatenates only the truthy parts, always in the
fixed order prompt, file mention, fenced code selection, fenced terminal
output, problems list, joined with a double newline; a context with no truthy
field and an absent or empty diagnostics array yields the empty string; and a
diagnostic line is rendered 1-based (`range.start.line + 1`, defaulting to
line 1 when the range is missing). -/
theorem formatContext_spec :
    (∀ (fm : String → String) (c : CommandContext),
        truthyString c.prompt = false →
        truthyString c.filePath = false →
        c.codeSelection = none →
        truthyString c.terminalOutput = false →
        (c.diagnostics = none ∨ c.diagnostics = some []) →
        formatContext fm c = "")
    ∧ (∀ fm : String → String,
        formatContext fm
          ⟨some "Fix this", some "a.ts", some ⟨"x = 1", "ts"⟩, some "boom",
            some [⟨none, DiagnosticSeverity.diagnosticError, "msg", none⟩]⟩
          = String.intercalate "\n\n"
              ["Fix this", fm "a.ts", "```ts\nx = 1\n```",
               "Terminal output:\n```\nboom\n```",
               "Problems:\n- Error on line 1: msg"])
    ∧ (∀ (n : Nat) (sev : DiagnosticSeverity) (msg : String),
        diagnosticLine ⟨some ⟨some ⟨n⟩⟩, sev, msg, none⟩
          = "- " ++ severityLabel sev ++ " on line " ++ toString (n + 1) ++ ": "
              ++ msg ++ "\n"
        ∧ diagnosticLine ⟨none, sev, msg, none⟩
          = "- " ++ severityLabel sev ++ " on line " ++ "1" ++ ": " ++ msg ++ "\n") := by
  refine ⟨?_, ?_, ?_⟩
  · intro fm c h1 h2 h3 h4 h5
    rcases h5 with h5 | h5 <;> simp [formatContext, h1, h2, h3, h4, h5] <;> rfl
  · intro fm
    rfl
  · intro n sev msg
    refine ⟨rfl, ?_⟩
    rw [show ("1" : String) = toString (1 : Nat) from rfl]
    rfl

/-- Witness for C10: the all-absent context formats to the empty string, and a
severity-error diagnostic with no range renders on line 1. -/
theorem formatContext_spec_witness :
    formatContext (fun s => s) ⟨none, none, none, none, none⟩ = ""
    ∧ diagnosticLine ⟨none, DiagnosticSeverity.diagnosticError, "msg", none⟩
        = "- " ++ severityLabel DiagnosticSeverity.diagnosticError ++ " on line " ++ "1"
            ++ ": " ++ "msg" ++ "\n" :=
  ⟨formatContext_spec.1 (fun s => s) ⟨none, none, none, none, none⟩ rfl rfl rfl rfl
      (Or.inl rfl),
   (formatContext_spec.2.2 0 DiagnosticSeverity.diagnosticError "msg").2⟩

end Cline
